import Mathlib

/-!
Shallow embedding of the episode-discovery core of the holo repository
(`src/module_find_episodes.py`, `src/data/models.py`, `src/data/database.py`,
`src/services/stream/nyaa.py`), together with theorems checking the
natural-language specification against it.

Machine integers are modelled as `Int` (Python integers are unbounded).
Timestamps (`datetime` values) are modelled as integers on a common clock.
External collaborators (the reddit publisher, the RSS fetcher) are modelled
as function parameters, mirroring the narrow contracts the driver relies on.
Fallible code returns `Except`; in particular the driver embeds the real
`TypeError` raised at `module_find_episodes.py:120`, where the `@property`
`Episode.is_live` is invoked as `episode.is_live()` — calling the bool the
property evaluates to, which Python rejects — so the driver aborts on every
candidate before classifying anything.
-/

namespace Holo

/-- `data/models.py` `Show` (scalar fields plus the alias list that
`database.get_shows` attaches to every returned show). `enabled` and
`delayed` are stored as integers in the source and used as booleans. -/
structure Show where
  id : Int
  name : String
  name_en : String
  length : Int
  show_type : Int
  has_source : Bool
  is_nsfw : Bool
  enabled : Bool
  delayed : Bool
  aliases : List String
  deriving DecidableEq

/-- `data/models.py` `Episode`.  `date` is the publish timestamp; in the
source it is left unset when the constructor receives `None` (adapters
always supply one), modelled here as `Option Int`. -/
structure Episode where
  number : Int
  name : Option String
  link : Option String
  date : Option Int
  deriving DecidableEq

/-- `data/models.py` `Episode.is_live`: the value of the `@property`
getter, whose body is `now >= self.date` with `now` taken from the clock.
This is only the getter: the driver does not use this value directly — it
writes `episode.is_live()`, calling the bool, which raises `TypeError`
(see `callBool` and `processNewEpisode`).  An episode without a date never
reaches the getter in practice (adapters always attach a timestamp); we
return `false` for that case. -/
def Episode.is_live (e : Episode) (now : Int) : Bool :=
  match e.date with
  | some d => decide (now ≥ d)
  | none => false

/-- `data/models.py` `Service`. -/
structure Service where
  id : Int
  key : String
  name : String
  enabled : Bool
  use_in_post : Bool
  deriving DecidableEq

/-- `data/models.py` `Stream` (the model object handed to the driver, with
its `Show` attached the way `database.get_streams` builds it). -/
structure Stream where
  id : Int
  service : Int
  show_ : Show
  show_id : Int
  show_key : String
  name : String
  remote_offset : Int
  display_offset : Int
  active : Int
  deriving DecidableEq

/-- `Stream.from_show`: the synthetic stream built for generic services. -/
def Stream.from_show (s : Show) : Stream :=
  { id := -s.id
    service := -1
    show_ := s
    show_id := s.id
    show_key := s.name
    name := s.name
    remote_offset := 0
    display_offset := 0
    active := 1 }

/-- `Stream.to_internal_episode`: copy the episode and subtract
`remote_offset` from its number (native → canonical). -/
def Stream.to_internal_episode (st : Stream) (e : Episode) : Episode :=
  { e with number := e.number - st.remote_offset }

/-- `Stream.to_display_episode`: copy the episode and add `display_offset`
to its number (canonical → display). -/
def Stream.to_display_episode (st : Stream) (e : Episode) : Episode :=
  { e with number := e.number + st.display_offset }

/-- One row of the `Episodes` table
(`show INTEGER NOT NULL, episode INTEGER NOT NULL, post_url TEXT,
UNIQUE(show, episode) ON CONFLICT REPLACE`). -/
structure EpisodeRow where
  show_ : Int
  episode : Int
  post_url : Option String
  deriving DecidableEq

/-- One row of the `Streams` table (the `show` column is nullable:
unmatched streams have no bound show). -/
structure StreamRow where
  id : Int
  service : Int
  show_ : Option Int
  show_key : String
  name : Option String
  remote_offset : Int
  display_offset : Int
  active : Bool
  deriving DecidableEq

/-- The database state touched by the episode-discovery driver. -/
structure DB where
  shows : List Show
  episodes : List EpisodeRow
  streams : List StreamRow
  services : List Service
  deriving DecidableEq

/-- `SELECT ... ORDER BY episode DESC LIMIT 1` over a list of rows: the row
with the greatest episode number, if any. -/
def latestRowAux : List EpisodeRow → Option EpisodeRow
  | [] => none
  | r :: rs =>
    match latestRowAux rs with
    | none => some r
    | some m => if r.episode ≥ m.episode then some r else some m

/-- `database.get_latest_episode`: the row of `Episodes` for this show with
the greatest episode number, packaged as an `Episode` (`episode AS number`,
`post_url AS link`; no name or date columns exist). -/
def get_latest_episode (db : DB) (sh : Show) : Option Episode :=
  (latestRowAux (db.episodes.filter (fun r => r.show_ = sh.id))).map
    (fun r => { number := r.episode, name := none, link := r.post_url, date := none })

/-- `database.add_episode`: `INSERT INTO Episodes (show, episode, post_url)`.
The table's `UNIQUE(show, episode) ON CONFLICT REPLACE` constraint deletes
any existing row with the same key before the insert. -/
def add_episode (db : DB) (sh : Show) (episode_num : Int) (post_url : String) : DB :=
  { db with
    episodes :=
      db.episodes.filter (fun r => !(r.show_ = sh.id ∧ r.episode = episode_num)) ++
        [{ show_ := sh.id, episode := episode_num, post_url := some post_url }] }

/-- `database.set_show_delayed`: `UPDATE Shows SET delayed = ? WHERE id = ?`. -/
def set_show_delayed (db : DB) (sh : Show) (delayed : Bool) : DB :=
  { db with
    shows := db.shows.map (fun s => if s.id = sh.id then { s with delayed := delayed } else s) }

/-- `database.get_shows`: the four SQL branches selected by
`missing_length` / `missing_stream` / `delayed`, all filtered on
`enabled = ?`.  The `missing_stream` branch counts active streams on
enabled services bound to the show. -/
def get_shows (db : DB) (missing_length missing_stream enabled delayed : Bool) : List Show :=
  if missing_length then
    db.shows.filter (fun s => s.length = 0 ∧ s.enabled = enabled)
  else if missing_stream then
    db.shows.filter (fun s =>
      (db.streams.filter (fun r =>
        r.show_ = some s.id ∧ r.active = true ∧
          db.services.any (fun sv => sv.id = r.service ∧ sv.enabled = true))).length = 0 ∧
        s.enabled = enabled)
  else if delayed then
    db.shows.filter (fun s => s.delayed = true ∧ s.enabled = enabled)
  else
    db.shows.filter (fun s => s.enabled = enabled)

/-- Python `str.replace(pat, repl)` on character lists: replace each
non-overlapping occurrence of `pat`, scanning left to right.  Fuel equals
the remaining length; every step consumes at least one character.  (The
degenerate empty pattern, which the driver never uses, is left alone.) -/
def pyReplaceAux (pat repl : List Char) : Nat → List Char → List Char
  | 0, l => l
  | _ + 1, [] => []
  | fuel + 1, c :: cs =>
    if pat ≠ [] ∧ pat.isPrefixOf (c :: cs) then
      repl ++ pyReplaceAux pat repl fuel (List.drop pat.length (c :: cs))
    else c :: pyReplaceAux pat repl fuel cs

/-- Python `str.replace` (total replacement, as in
`post_url.replace("http:", "https:")`). -/
def pyReplace (s pat repl : String) : String :=
  String.mk (pyReplaceAux pat.toList repl.toList s.toList.length s.toList)

/-- A Python runtime exception surfaced by the embedded code. -/
inductive PyError where
  | typeError (message : String)
  deriving DecidableEq

/-- The exception Python raises when a `bool` is called. -/
def boolCallError : PyError := PyError.typeError "bool object is not callable"

/-- Python call semantics for the expression `b()` where `b` is a `bool`:
a bool is not callable, so the call raises `TypeError` whatever the value
of `b` is.  This is what `episode.is_live()` evaluates to once the
`is_live` property has produced its boolean. -/
def callBool (_b : Bool) : Except PyError Bool :=
  Except.error boolCallError

/-- `module_find_episodes._process_new_episode`, including its fatal
flaw.  Line 120 (`logger.debug("  Is live: %s", episode.is_live())`)
invokes `episode.is_live()`; `is_live` is a `@property`
(`data/models.py:89`), so `episode.is_live` is already a `bool` and the
trailing call raises `TypeError: bool object is not callable`,
unconditionally, before anything else in the function runs.  Nothing in
`main` catches it (only `IOError` is handled), so the whole cycle aborts.
The classification and publish logic after the call is embedded below as
written in the source, but it is unreachable.

The reddit publisher (`_create_reddit_post`, which builds and submits the
post and returns the short link or `None`) is passed in as `publishF`,
the clock as `now`.  A (never produced) `ok` result would carry the
database after the call, the publisher invocations
`(show id, canonical number)`, and the returned boolean.  The re-edit of
previous episodes after a successful persist only touches reddit, never
the store, and is not part of the state. -/
def processNewEpisode (publishF : Show → Int → Option String) (now : Int)
    (db : DB) (sh : Show) (st : Stream) (episode : Episode) :
    Except PyError (DB × List (Int × Int) × Bool) := do
  let live ← callBool (episode.is_live now)
  if live then
    let int_episode := st.to_internal_episode episode
    if int_episode.number ≤ 0 then pure (db, [], false)
    else
      let latest_episode := get_latest_episode db sh
      let already_seen : Bool :=
        match latest_episode with
        | none => false
        | some l => decide (l.number ≥ int_episode.number)
      let episode_number_gap : Bool :=
        match latest_episode with
        | none => false
        | some l => decide (l.number > 0) && decide (int_episode.number > l.number + 1)
      if !already_seen && !episode_number_gap then
        match publishF sh int_episode.number with
        | some post_url =>
          let url := pyReplace post_url "http:" "https:"
          let db1 := add_episode db st.show_ int_episode.number url
          let db2 := if sh.delayed then set_show_delayed db1 sh false else db1
          pure (db2, [(sh.id, int_episode.number)], true)
        | none => pure (db, [(sh.id, int_episode.number)], true)
      else pure (db, [], false)
  else pure (db, [], false)

/-- The per-stream loop of `module_find_episodes.main`:
`for episode in sorted(episodes, key=lambda e: e.number): _process_new_episode(...)`,
collecting the shows for which the call returned `True`.  Python's
`sorted` is a stable sort on the key; `insertionSort` with `≤` on the
native number is the same function.  The uncaught `TypeError` from
`_process_new_episode` aborts the loop at its first candidate (and then
the whole cycle): the error propagates through the monadic fold. -/
def processReport (publishF : Show → Int → Option String) (now : Int)
    (db : DB) (sh : Show) (st : Stream) (episodes : List Episode) :
    Except PyError (DB × List (Int × Int) × List Show) :=
  (List.insertionSort (fun a b => a.number ≤ b.number) episodes).foldlM
    (fun acc episode => do
      let r ← processNewEpisode publishF now acc.1 sh st episode
      pure (r.1, acc.2.1 ++ r.2.1, if r.2.2 then acc.2.2 ++ [sh] else acc.2.2))
    (db, [], [])

/-- The generic-service supply set built in `module_find_episodes.main`:
`other_shows = set(db.get_shows(missing_stream=False)) | set(db.get_shows(delayed=True))`.
The python sets compare shows by id; the union is modelled as the first
list extended with the members of the second not already present by id.
The same `other_streams = [Stream.from_show(show) for show in other_shows]`
list is then handed to every enabled generic service handler. -/
def genericSuppliedShows (db : DB) : List Show :=
  let a := get_shows db false false true false
  let b := get_shows db false false true true
  a ++ b.filter (fun s => !(a.any (fun t => t.id = s.id)))

/-- `other_streams` as handed to generic service handlers. -/
def otherStreams (db : DB) : List Stream :=
  (genericSuppliedShows db).map Stream.from_show

/-! ## The nyaa generic-feed matcher (`services/stream/nyaa.py`) -/

/-- A parsed RSS feed entry as consumed by the nyaa handler: its title,
its id (used as the episode link) and its publish time. -/
structure Torrent where
  title : String
  id : String
  published_parsed : Int
  deriving DecidableEq

/-- Python `str.casefold` (simple case folding; every character the
normalization keeps is ASCII, where this agrees with lowercasing). -/
def casefold (s : String) : String := String.mk (s.toList.map Char.toLower)

/-- `\d` over the post-substitution alphabet (ASCII digits). -/
def isDigitChar (c : Char) : Bool := '0' ≤ c && c ≤ '9'

/-- One attempt of the pattern `season \d( part \d)?` at the head of the
character list: on success, the characters after the (greedy) match. -/
def matchSeason : List Char → Option (List Char)
  | 's' :: 'e' :: 'a' :: 's' :: 'o' :: 'n' :: ' ' :: d :: rest =>
    if isDigitChar d then
      match rest with
      | ' ' :: 'p' :: 'a' :: 'r' :: 't' :: ' ' :: d2 :: rest2 =>
        if isDigitChar d2 then some rest2 else some rest
      | _ => some rest
    else none
  | _ => none

/-- `re.sub("season \d( part \d)?", " ", name)`: scan left to right; at a
match emit one space and resume after it, otherwise keep the character.
Fuel equals the remaining length, which a match always strictly consumes,
so the fuel never runs out before the scan finishes. -/
def seasonSubAux : Nat → List Char → List Char
  | 0, l => l
  | _ + 1, [] => []
  | fuel + 1, c :: cs =>
    match matchSeason (c :: cs) with
    | some rest => ' ' :: seasonSubAux fuel rest
    | none => c :: seasonSubAux fuel cs

def seasonSub (l : List Char) : List Char := seasonSubAux l.length l

/-- `re.sub("\s+", " ", name)` on a string whose only whitespace is the
space character: collapse each run of spaces to a single space. -/
def collapseSpaces : List Char → List Char
  | [] => []
  | [c] => [c]
  | a :: b :: rest =>
    if a = ' ' ∧ b = ' ' then collapseSpaces (b :: rest)
    else a :: collapseSpaces (b :: rest)

/-- `nyaa._normalize_show_name`: casefold, replace every character outside
`[a-z0-9]` by a space (`re.sub("[^a-z0-9]", " ", ...)` substitutes each
matching character separately), the redundant underscore substitution,
strip `season \d( part \d)?` substrings, collapse whitespace. -/
def normalize_show_name (name : String) : String :=
  let s1 := (casefold name).toList
  let s2 := s1.map (fun c => if ('a' ≤ c && c ≤ 'z') || ('0' ≤ c && c ≤ '9') then c else ' ')
  let s3 := s2.map (fun c => if c = '_' then ' ' else c)
  let s4 := seasonSub s3
  let s5 := collapseSpaces s4
  String.mk s5

/-- Helper for `splitWords`: `w` is the word currently being read. -/
def splitWordsAux : List Char → List Char → List String
  | [], w => if w.isEmpty then [] else [String.mk w]
  | c :: cs, w =>
    if c = ' ' then
      if w.isEmpty then splitWordsAux cs [] else String.mk w :: splitWordsAux cs []
    else splitWordsAux cs (w ++ [c])

/-- Python `str.split()` (no separator argument): the non-empty maximal
runs of non-whitespace characters, in order.  The normalized strings it is
applied to contain no whitespace other than the space character. -/
def splitWords (s : String) : List String := splitWordsAux s.toList []

/-- `set(a).issubset(set(b))` on word lists. -/
def subsetWords (a b : List String) : Bool := a.all (fun w => b.contains w)

/-- The candidate name forms tried for a stream in
`nyaa.ServiceHandler._find_matching_stream`:
`[show.name] + show.aliases + [stream.show_key]`. -/
def streamNames (st : Stream) : List String :=
  [st.show_.name] ++ st.show_.aliases ++ [st.show_key]

/-- `nyaa.ServiceHandler._find_matching_stream`: every stream one of whose
name forms has its normalized word set contained in the normalized word
set of the torrent title (the source breaks out of the name loop after the
first hit, i.e. keeps the stream exactly when some name form matches). -/
def find_matching_stream (torrent : Torrent) (streams : List Stream) : List Stream :=
  streams.filter (fun st =>
    (streamNames st).any (fun nm =>
      subsetWords (splitWords (normalize_show_name nm))
        (splitWords (normalize_show_name torrent.title))))

/-- The episode dictionary built by `nyaa.ServiceHandler.get_recent_episodes`,
keyed by stream (python `Stream.__eq__`/`__hash__` compare by id): append
`episode` to the entry for `st`, creating it if absent. -/
def updAssoc : List (Stream × List Episode) → Stream → Episode → List (Stream × List Episode)
  | [], st, e => [(st, [e])]
  | (k, eps) :: rest, st, e =>
    if k.id = st.id then (k, eps ++ [e]) :: rest
    else (k, eps) :: updAssoc rest st e

/-- `nyaa.ServiceHandler.get_recent_episodes`.  The feed-item validity
check `_is_valid_episode` (exclusion regexes, 2-day window, extractable
positive number) and the item digester `_digest_episode` (episode-number
extraction from the title) are separate functions of the source passed
here as parameters `isValid` and `digest`; matching itself never looks at
them.  For every torrent, the matching streams are computed first, invalid
torrents are skipped, and the digested episode is appended under every
matched stream. -/
def get_recent_episodes (isValid : Torrent → Bool) (digest : Torrent → Option Episode)
    (torrents : List Torrent) (streams : List Stream) : List (Stream × List Episode) :=
  torrents.foldl
    (fun episodes torrent =>
      let found_streams := find_matching_stream torrent streams
      if !(isValid torrent) then episodes
      else
        found_streams.foldl
          (fun acc st =>
            match digest torrent with
            | some e => updAssoc acc st e
            | none => acc)
          episodes)
    []

/-! ## Concrete fixtures used by counterexamples and witnesses -/

/-- A tracked show, enabled, not delayed. -/
def showA : Show :=
  { id := 1, name := "Kimetsu no Yaiba", name_en := "Demon Slayer", length := 26
    show_type := 1, has_source := true, is_nsfw := false, enabled := true
    delayed := false, aliases := [] }

/-- The synthetic stream for `showA` (offsets zero). -/
def streamA : Stream := Stream.from_show showA

/-- A second tracked show whose name words are a subset of `showA`'s. -/
def showB : Show :=
  { id := 2, name := "Kimetsu", name_en := "", length := 12
    show_type := 1, has_source := true, is_nsfw := false, enabled := true
    delayed := false, aliases := [] }

def streamB : Stream := Stream.from_show showB

/-- A database holding only `showA`, with no episodes. -/
def dbA : DB := { shows := [showA], episodes := [], streams := [], services := [] }

/-- A database where `showA` already has episodes 1 and 2 persisted. -/
def dbA2 : DB :=
  { shows := [showA]
    episodes :=
      [ { show_ := 1, episode := 1, post_url := some "https://redd.it/e1" }
      , { show_ := 1, episode := 2, post_url := some "https://redd.it/e2" } ]
    streams := [], services := [] }

/-- An enabled, undelayed show that has an active matched stream on an
enabled service. -/
def showC : Show :=
  { id := 3, name := "Sousou no Frieren", name_en := "Frieren", length := 28
    show_type := 1, has_source := true, is_nsfw := false, enabled := true
    delayed := false, aliases := [] }

/-- A database where `showC` is fully covered by an active stream on an
enabled service (so it is not lacking a stream, and not delayed). -/
def dbC2 : DB :=
  { shows := [showC]
    episodes := []
    streams :=
      [ { id := 7, service := 10, show_ := some 3, show_key := "frieren"
          name := some "Frieren", remote_offset := 0, display_offset := 0
          active := true } ]
    services := [ { id := 10, key := "crunchyroll", name := "Crunchyroll"
                    enabled := true, use_in_post := true } ] }

/-- An enabled show currently marked delayed. -/
def showD : Show :=
  { id := 4, name := "Yuru Camp", name_en := "Laid-Back Camp", length := 12
    show_type := 1, has_source := true, is_nsfw := false, enabled := true
    delayed := true, aliases := [] }

def streamD : Stream := Stream.from_show showD

/-- A database holding the delayed `showD` with no persisted episodes. -/
def dbD : DB := { shows := [showD], episodes := [], streams := [], services := [] }

/-- Feed item whose title contains all words of `showA`'s name. -/
def torrentYaiba : Torrent :=
  { title := "[Group] Kimetsu no Yaiba S2 - 05 [1080p]"
    id := "https://nyaa.si/view/1", published_parsed := 0 }

/-- Feed item missing the words "no" and "yaiba". -/
def torrentKimetsu2 : Torrent :=
  { title := "[Group] Kimetsu 2 - 05"
    id := "https://nyaa.si/view/2", published_parsed := 0 }

/-- Feed item matched by both `streamA` ("Kimetsu no Yaiba") and
`streamB` ("Kimetsu"): an ambiguous item. -/
def torrentAmb : Torrent :=
  { title := "[Group] Kimetsu no Yaiba - 05"
    id := "https://nyaa.si/view/3", published_parsed := 0 }

/-- The digested candidate episode of `torrentAmb`. -/
def episodeAmb : Episode :=
  { number := 5, name := none, link := some "https://nyaa.si/view/3", date := some 0 }

end Holo

namespace Holo

/-! ## Character-class lemmas for the normalization -/

theorem matchSeason_all {p : Char → Bool} :
    ∀ {l r : List Char}, matchSeason l = some r → l.all p = true → r.all p = true := by
  intro l r h hall
  unfold matchSeason at h
  split at h
  · rename_i d rest
    split at h
    · split at h
      · split at h <;> (cases h; simp_all)
      · cases h; simp_all
    · cases h
  · cases h

theorem seasonSubAux_all {p : Char → Bool} (hsp : p ' ' = true) :
    ∀ (fuel : Nat) (l : List Char), l.all p = true → (seasonSubAux fuel l).all p = true := by
  intro fuel
  induction fuel with
  | zero => intro l h; simpa [seasonSubAux] using h
  | succ n ih =>
    intro l h
    match l with
    | [] => simp [seasonSubAux]
    | c :: cs =>
      simp only [seasonSubAux]
      split
      · rename_i rest hm
        simp only [List.all_cons, hsp, Bool.true_and]
        exact ih rest (matchSeason_all hm h)
      · simp only [List.all_cons, Bool.and_eq_true] at h ⊢
        exact ⟨h.1, ih cs h.2⟩

theorem collapseSpaces_all {p : Char → Bool} :
    ∀ l : List Char, l.all p = true → (collapseSpaces l).all p = true
  | [], h => by simp [collapseSpaces]
  | [c], h => by simpa [collapseSpaces] using h
  | a :: b :: rest, h => by
    simp only [List.all_cons, Bool.and_eq_true] at h
    simp only [collapseSpaces]
    have hb : (b :: rest).all p = true := by
      simp only [List.all_cons, Bool.and_eq_true]
      exact h.2
    split
    · exact collapseSpaces_all (b :: rest) hb
    · simp only [List.all_cons, Bool.and_eq_true]
      exact ⟨h.1, collapseSpaces_all (b :: rest) hb⟩

theorem normalize_show_name_charclass (s : String) :
    (normalize_show_name s).toList.all
      (fun c => c = ' ' || ('a' ≤ c && c ≤ 'z') || ('0' ≤ c && c ≤ '9')) = true := by
  unfold normalize_show_name seasonSub
  apply collapseSpaces_all
  apply seasonSubAux_all (by decide)
  rw [List.all_map, List.all_map]
  apply List.all_eq_true.mpr
  intro c _
  by_cases hg : (('a' ≤ c && c ≤ 'z') || ('0' ≤ c && c ≤ '9')) = true
  · have hne : c ≠ '_' := by
      intro hc
      subst hc
      revert hg
      decide
    simp only [Function.comp_apply, hg, if_true, hne, if_false, reduceIte]
    simp only [Bool.or_eq_true] at hg ⊢
    tauto
  · simp [Function.comp_apply, hg]

/-! ## The driver raises before doing anything -/

/-- Every `_process_new_episode` call raises the `TypeError` from
`episode.is_live()` before reading or writing the store or calling the
publisher. -/
theorem processNewEpisode_raises (publishF : Show → Int → Option String) (now : Int)
    (db : DB) (sh : Show) (st : Stream) (episode : Episode) :
    processNewEpisode publishF now db sh st episode = Except.error boolCallError := rfl

/-- A non-empty report dies at its first (lowest-numbered) candidate:
the per-stream loop propagates the `TypeError` and produces nothing. -/
theorem processReport_raises (publishF : Show → Int → Option String) (now : Int)
    (db : DB) (sh : Show) (st : Stream) (e : Episode) (es : List Episode) :
    processReport publishF now db sh st (e :: es) = Except.error boolCallError := by
  unfold processReport
  have hperm := List.perm_insertionSort
    (fun a b : Episode => a.number ≤ b.number) (e :: es)
  cases hsort : List.insertionSort (fun a b : Episode => a.number ≤ b.number) (e :: es) with
  | nil =>
    rw [hsort] at hperm
    exact absurd hperm.length_eq (by simp)
  | cons x xs =>
    rfl

/-- The `(show, episode)` keys of the persisted `Episodes` rows. -/
def epKeys (db : DB) : List (Int × Int) :=
  db.episodes.map (fun r => (r.show_, r.episode))

theorem to_internal_number (st : Stream) (e : Episode) :
    (st.to_internal_episode e).number = e.number - st.remote_offset := rfl

theorem to_display_number (st : Stream) (e : Episode) :
    (st.to_display_episode e).number = e.number + st.display_offset := rfl

/-- **C4** For every stream `s` and native episode number `x`, the
numbering translation satisfies `toCanonical(x, s) = x - s.remote_offset`
exactly, and `toDisplay(toCanonical(x, s), s) - toCanonical(x, s) =
s.display_offset` exactly, over the integers. -/
theorem c4_offset_round_trip (st : Stream) (e : Episode) :
    (st.to_internal_episode e).number = e.number - st.remote_offset ∧
    (st.to_display_episode (st.to_internal_episode e)).number -
        (st.to_internal_episode e).number = st.display_offset := by
  refine ⟨rfl, ?_⟩
  simp only [Stream.to_internal_episode, Stream.to_display_episode]
  ring

/-- **C1 (code bug)** The claimed classification never happens.
`is_live` is a `@property` (`data/models.py:89`) and
`_process_new_episode` calls `episode.is_live()`
(`module_find_episodes.py:120`), so every candidate — here a live one
with canonical number `latest + 1` that the claim says must be
classified New and published — raises
`TypeError: bool object is not callable` before the freshness branch is
reached; `main` catches only `IOError`, so the cycle aborts and no
candidate is ever classified Invalid, AlreadySeen, Gap or New. -/
theorem c1_driver_crash :
    processNewEpisode (fun _ _ => some "https://redd.it/c1") 100 dbA2 showA streamA
      { number := 3, name := none, link := none, date := some 0 }
      = Except.error boolCallError ∧
    ∀ (publishF : Show → Int → Option String) (now : Int) (db : DB)
      (sh : Show) (st : Stream) (e : Episode),
      processNewEpisode publishF now db sh st e = Except.error boolCallError :=
  ⟨processNewEpisode_raises (fun _ _ => some "https://redd.it/c1") 100 dbA2 showA streamA
      { number := 3, name := none, link := none, date := some 0 },
   fun publishF now db sh st e => processNewEpisode_raises publishF now db sh st e⟩

/-- **C8 (code bug)** The claimed publish/persist effects never occur:
for a candidate the claim classifies New (delayed show, empty store,
canonical number 1) with a publisher that would return a reference, the
driver raises `TypeError` at `episode.is_live()` before the publisher or
the store is touched — there is no successful outcome at all, so no
episode row is written, the delayed flag is never cleared, and the
failure branch the claim describes is equally unreachable. -/
theorem c8_publish_crash :
    processNewEpisode (fun _ _ => some "http://redd.it/c8") 50 dbD showD streamD
      { number := 1, name := none, link := none, date := some 0 }
      = Except.error boolCallError ∧
    ¬ ∃ res, processNewEpisode (fun _ _ => some "http://redd.it/c8") 50 dbD showD streamD
      { number := 1, name := none, link := none, date := some 0 } = Except.ok res := by
  refine ⟨processNewEpisode_raises (fun _ _ => some "http://redd.it/c8") 50 dbD showD streamD
      { number := 1, name := none, link := none, date := some 0 }, ?_⟩
  rintro ⟨res, hres⟩
  rw [processNewEpisode_raises] at hres
  cases hres

/-- **C5 (code bug)** The freshness predicate itself — the `is_live`
property getter — admits a candidate iff `t ≤ now`, exactly as claimed.
But the driver calls the property value, so a candidate stamped 600
seconds in the future is not "excluded ... regardless of numbering" with
the run continuing: evaluating the code on it raises the same
`TypeError` as for any fresh candidate, aborting the whole cycle. -/
theorem c5_freshness_crash :
    (∀ (now t num : Int) (nm lk : Option String),
      Episode.is_live { number := num, name := nm, link := lk, date := some t } now = true
        ↔ t ≤ now) ∧
    processNewEpisode (fun _ _ => some "https://redd.it/x") 0 dbA showA streamA
      { number := 7, name := none, link := none, date := some 600 }
      = Except.error boolCallError := by
  constructor
  · intro now t num nm lk
    simp only [Episode.is_live, decide_eq_true_eq, ge_iff_le]
  · exact processNewEpisode_raises (fun _ _ => some "https://redd.it/x") 0 dbA showA streamA
      { number := 7, name := none, link := none, date := some 600 }

/-- **C7 counterexample** The claim says the normalization strips
`season \d+( part \d+)?` with numbers of any length, so "foo Season 12"
would normalize to the word set {foo}.  The source pattern is
`season \d( part \d)?` (single digits): only "season 1" is removed and
the word "2" survives. -/
theorem c7_counterexample :
    splitWords (normalize_show_name "foo Season 12") = ["foo", "2"] ∧
    "2" ∈ splitWords (normalize_show_name "foo Season 12") ∧
    splitWords (normalize_show_name "foo Season 12") ≠ ["foo"] := by decide

/-- **C6** The generic-feed matcher associates a feed item with a tracked
show iff, for at least one of the show's candidate name forms (name,
aliases, stream key), the normalized word set of the name form is a
subset of the normalized word set of the item title.  In particular
"Kimetsu no Yaiba" matches "[Group] Kimetsu no Yaiba S2 - 05 [1080p]"
and does not match "[Group] Kimetsu 2 - 05". -/
theorem c6_matcher_subset :
    (∀ (torrent : Torrent) (streams : List Stream) (st : Stream),
      st ∈ find_matching_stream torrent streams ↔
        st ∈ streams ∧ ∃ nm ∈ streamNames st,
          subsetWords (splitWords (normalize_show_name nm))
            (splitWords (normalize_show_name torrent.title)) = true) ∧
    streamA ∈ find_matching_stream torrentYaiba [streamA] ∧
    streamA ∉ find_matching_stream torrentKimetsu2 [streamA] := by
  refine ⟨?_, by decide, by decide⟩
  intro torrent streams st
  simp [find_matching_stream, List.mem_filter, List.any_eq_true]

/-- **C2 counterexample** The claim says generic services are supplied
exactly with the enabled shows lacking an active matched stream plus the
delayed shows.  `showC` is enabled, has an active matched stream on an
enabled service, and is not delayed — yet `main` supplies it, because the
source computes `db.get_shows(missing_stream=False)`, i.e. all enabled
shows. -/
theorem c2_counterexample :
    showC ∈ genericSuppliedShows dbC2 ∧
    showC ∉ get_shows dbC2 false true true false ∧
    showC ∉ get_shows dbC2 false false true true := by decide

/-- **C2 amended** The shows whose synthetic streams (remote and display
offset zero) are supplied to every generic adapter are exactly the
currently-enabled shows — whether or not they have an active matched
stream; the delayed-shows term of the union adds nothing because delayed
shows fetched with `enabled=True` are already enabled. -/
theorem c2_generic_supply :
    (∀ (db : DB) (s : Show),
      s ∈ genericSuppliedShows db ↔ s ∈ db.shows ∧ s.enabled = true) ∧
    (∀ s : Show, (Stream.from_show s).remote_offset = 0 ∧
      (Stream.from_show s).display_offset = 0) := by
  refine ⟨?_, fun s => ⟨rfl, rfl⟩⟩
  intro db s
  simp only [genericSuppliedShows, get_shows, if_false, Bool.false_eq_true, reduceIte,
    List.mem_append, List.mem_filter, decide_eq_true_eq]
  constructor
  · rintro (⟨h1, h2⟩ | ⟨⟨h1, h2⟩, _⟩)
    · exact ⟨h1, h2⟩
    · exact ⟨h1, h2.2⟩
  · intro ⟨h1, h2⟩
    exact Or.inl ⟨h1, h2⟩

/-- **C3 counterexample** The claim says an item whose title matches more
than one tracked show is discarded with no association and no candidate
episode.  `torrentAmb` matches both `streamA` and `streamB`, and
`get_recent_episodes` nevertheless produces the digested episode under
both streams. -/
theorem c3_counterexample :
    (find_matching_stream torrentAmb [streamA, streamB]).length = 2 ∧
    get_recent_episodes (fun _ => true) (fun t => some
        { number := 5, name := none, link := some t.id, date := some 0 })
      [torrentAmb] [streamA, streamB]
      = [(streamA, [episodeAmb]), (streamB, [episodeAmb])] := by decide

theorem updAssoc_mem_self (m : List (Stream × List Episode)) (st : Stream) (e : Episode) :
    ∃ k eps, (k, eps) ∈ updAssoc m st e ∧ k.id = st.id ∧ e ∈ eps := by
  induction m with
  | nil => exact ⟨st, [e], by simp [updAssoc]⟩
  | cons hd tl ih =>
    obtain ⟨k0, eps0⟩ := hd
    by_cases h : k0.id = st.id
    · exact ⟨k0, eps0 ++ [e], by simp [updAssoc, h]⟩
    · obtain ⟨k, eps, hmem, hid, he⟩ := ih
      exact ⟨k, eps, by simp [updAssoc, h, hmem], hid, he⟩

theorem updAssoc_mem_mono (m : List (Stream × List Episode)) (st : Stream) (e : Episode)
    (k : Stream) (eps : List Episode) (e' : Episode)
    (hmem : (k, eps) ∈ m) (he : e' ∈ eps) :
    ∃ k' eps', (k', eps') ∈ updAssoc m st e ∧ k'.id = k.id ∧ e' ∈ eps' := by
  induction m with
  | nil => cases hmem
  | cons hd tl ih =>
    obtain ⟨k0, eps0⟩ := hd
    rcases List.mem_cons.mp hmem with heq | htl
    · injection heq with hk heps
      subst hk
      subst heps
      by_cases h : k.id = st.id
      · exact ⟨k, eps ++ [e], by simp [updAssoc, h], rfl, List.mem_append_left _ he⟩
      · exact ⟨k, eps, by simp [updAssoc, h], rfl, he⟩
    · by_cases h : k0.id = st.id
      · exact ⟨k, eps, by simp [updAssoc, h, htl], rfl, he⟩
      · obtain ⟨k', eps', hmem', hid', he'⟩ := ih htl
        exact ⟨k', eps', by simp [updAssoc, h, hmem'], hid', he'⟩

theorem foldl_upd_preserve (e : Episode) (found : List Stream) :
    ∀ (m : List (Stream × List Episode)) (k : Stream) (eps : List Episode) (e' : Episode),
      (k, eps) ∈ m → e' ∈ eps →
      ∃ k' eps', (k', eps') ∈ found.foldl (fun acc st => updAssoc acc st e) m ∧
        k'.id = k.id ∧ e' ∈ eps' := by
  induction found with
  | nil => exact fun m k eps e' hm he => ⟨k, eps, hm, rfl, he⟩
  | cons s rest ih =>
    intro m k eps e' hm he
    obtain ⟨k', eps', hmem', hid', he'⟩ := updAssoc_mem_mono m s e k eps e' hm he
    obtain ⟨k'', eps'', hmem'', hid'', he''⟩ := ih (updAssoc m s e) k' eps' e' hmem' he'
    exact ⟨k'', eps'', hmem'', hid''.trans hid', he''⟩

theorem foldl_upd_hits (e : Episode) (found : List Stream) :
    ∀ (m : List (Stream × List Episode)) (st : Stream), st ∈ found →
      ∃ k eps, (k, eps) ∈ found.foldl (fun acc st => updAssoc acc st e) m ∧
        k.id = st.id ∧ e ∈ eps := by
  induction found with
  | nil => intro m st h; cases h
  | cons s rest ih =>
    intro m st h
    rcases List.mem_cons.mp h with heq | htl
    · subst heq
      obtain ⟨k, eps, hmem, hid, he⟩ := updAssoc_mem_self m st e
      obtain ⟨k', eps', hmem', hid', he'⟩ :=
        foldl_upd_preserve e rest (updAssoc m st e) k eps e hmem he
      exact ⟨k', eps', hmem', hid'.trans hid, he'⟩
    · exact ih (updAssoc m s e) st htl

/-- **C3 amended** An item whose title matches several tracked shows is
not discarded: for every matching stream (however many there are), the
digested candidate episode is recorded under that stream by the
generic-feed handler. -/
theorem c3_multi_match (isValid : Torrent → Bool) (digest : Torrent → Option Episode)
    (t : Torrent) (streams : List Stream) (st : Stream) (e : Episode)
    (hv : isValid t = true) (hd : digest t = some e)
    (hm : st ∈ find_matching_stream t streams) :
    ∃ k eps, (k, eps) ∈ get_recent_episodes isValid digest [t] streams ∧
      k.id = st.id ∧ e ∈ eps := by
  simp only [get_recent_episodes, List.foldl_cons, List.foldl_nil, hv, hd,
    Bool.not_true, Bool.false_eq_true, reduceIte]
  exact foldl_upd_hits e _ [] st hm

/-- Witness for `c3_multi_match`: the ambiguous item of the
counterexample feeds episode 5 to `streamB` as well. -/
theorem c3_multi_match_witness :
    ∃ k eps, (k, eps) ∈ get_recent_episodes (fun _ => true)
        (fun t => some { number := 5, name := none, link := some t.id, date := some 0 })
        [torrentAmb] [streamA, streamB] ∧
      k.id = streamB.id ∧ episodeAmb ∈ eps :=
  c3_multi_match (fun _ => true)
    (fun t => some { number := 5, name := none, link := some t.id, date := some 0 })
    torrentAmb [streamA, streamB] streamB episodeAmb rfl (by decide) (by decide)

/-- **C9 (code bug)** The `UNIQUE(show, episode)` key is unique in the
concrete store (`dbA2` persists episodes 1 and 2 of show 1 once each),
but the claimed behavior "once persisted, a later report of the same
canonical number classifies AlreadySeen and triggers no further publish
call" never happens: re-reporting canonical 2 raises `TypeError` at
`episode.is_live()` — the cycle aborts instead of classifying, so the
engine cannot guarantee anything about posting at all. -/
theorem c9_no_reclassification :
    (epKeys dbA2).Nodup ∧
    processNewEpisode (fun _ _ => some "https://redd.it/c9") 10 dbA2 showA streamA
      { number := 2, name := none, link := none, date := some 0 }
      = Except.error boolCallError :=
  ⟨by decide, processNewEpisode_raises (fun _ _ => some "https://redd.it/c9") 10 dbA2 showA
      streamA { number := 2, name := none, link := none, date := some 0 }⟩

/-- **C10 (code bug)** No report is ever processed in ascending order:
the per-report loop raises `TypeError` at its first candidate.  On the
out-of-order report `[native 4, native 3]` over a store with latest 2 —
where the claim says canonical 3 and 4 are both published and persisted
in that cycle — the loop yields the error and nothing is published or
persisted; the same holds for every non-empty report. -/
theorem c10_report_crash :
    processReport (fun _ _ => some "https://redd.it/p") 10 dbA2 showA streamA
      [ { number := 4, name := none, link := none, date := some 0 }
      , { number := 3, name := none, link := none, date := some 0 } ]
      = Except.error boolCallError ∧
    ∀ (publishF : Show → Int → Option String) (now : Int) (db : DB) (sh : Show)
      (st : Stream) (e : Episode) (es : List Episode),
      processReport publishF now db sh st (e :: es) = Except.error boolCallError :=
  ⟨processReport_raises (fun _ _ => some "https://redd.it/p") 10 dbA2 showA streamA
      { number := 4, name := none, link := none, date := some 0 }
      [ { number := 3, name := none, link := none, date := some 0 } ],
   fun publishF now db sh st e es => processReport_raises publishF now db sh st e es⟩

/-- **C7 amended** The matching normalization casefolds, replaces each
character outside `[a-z0-9]` with a space, strips `season N` / `season N
part M` substrings only for single decimal digits `N`, `M` (pattern
`season \d( part \d)?`), and collapses whitespace runs — so a title
containing "Season 12" keeps a residual "2" in its word set.  Every
output character is a lowercase ASCII letter, an ASCII digit, or a
space. -/
theorem c7_amended_normalization :
    (∀ s : String, (normalize_show_name s).toList.all
      (fun c => c = ' ' || ('a' ≤ c && c ≤ 'z') || ('0' ≤ c && c ≤ '9')) = true) ∧
    casefold "AbC" = "abc" ∧
    normalize_show_name "a!!b_c" = "a b c" ∧
    normalize_show_name "a   b" = "a b" ∧
    splitWords (normalize_show_name "foo Season 2 bar") = ["foo", "bar"] ∧
    splitWords (normalize_show_name "foo Season 2 Part 3 bar") = ["foo", "bar"] ∧
    splitWords (normalize_show_name "foo Season 12") = ["foo", "2"] := by
  refine ⟨?_, by decide, by decide, by decide, by decide, by decide, by decide⟩
  intro s
  exact normalize_show_name_charclass s

end Holo
